import Mathlib

/-!
Verification of the serial HID-emulator driver.

The repository holds two near-identical Python files, `data/arduLeo.py` and
`test2.py`. Each defines an `Arduino` session class that encodes mouse and
keyboard commands into bytes, writes them to a serial transport, and blocks
on a `threading.Event` until the device acknowledges command completion.
A background reader loop consumes bytes from the transport and reacts to
three control bytes (mouse calibration, screen calibration, command
complete).

This development shallow-embeds both classes. A public method call is
modelled as a pure function from its (Python-typed) arguments to an
`Outcome`: the list of bytes written to the transport before the call
either reached its final blocking wait or raised, together with that
result. The reader loop is modelled one byte at a time by a step function
over the event flag, parameterised by the calibration provider's current
values (the only point where the two files differ).
-/

/-- Errors a modelled call can raise: Python `ValueError` (the argument
validation error used by the source), `TypeError` (raised by comparisons
and `int()` on unsupported operand types), and `struct.error` (raised by
`struct.pack` when the value is not an integer or is out of range). -/
inductive PyErr where
  | valueError
  | typeError
  | structError
deriving DecidableEq

/-- Python values that can reach the methods of the `Arduino` classes:
`int`, `bool` (a subclass of `int` in Python), `float` (held as the exact
rational the float denotes), `str` (held as its list of character code
points), and `other` standing for any value of another type, such as
`None` or a list. -/
inductive PyVal where
  | pyInt (n : Int)
  | pyBool (b : Bool)
  | pyFloat (q : Rat)
  | pyStr (cps : List Nat)
  | other
deriving DecidableEq

deriving instance DecidableEq for Except

/-- Result of one modelled method call or helper: the bytes it wrote to the
serial transport, in order, before it finished or raised; `result` is
`Except.ok ()` when control reached the end of the modelled code (for a
public method, its final `self.__command_complete.wait()`), and
`Except.error e` when the Python code raised `e`, in which case `written`
holds exactly the bytes already flushed before the raise. -/
structure Outcome where
  written : List Nat
  result : Except PyErr Unit
deriving DecidableEq

/-- Runs a sequence of byte-writing statements in order: each statement's
bytes accumulate on the wire, and the first raise aborts the rest while
keeping everything already written. -/
def seqWrites : List Outcome → Outcome
  | [] => ⟨[], .ok ()⟩
  | o :: rest =>
    match o.result with
    | .error e => ⟨o.written, .error e⟩
    | .ok _ =>
      let r := seqWrites rest
      ⟨o.written ++ r.written, r.result⟩

/-- Python `isinstance(v, int)`: true for `int` and for `bool`, which is a
subclass of `int`. -/
def isinstance_int : PyVal → Bool
  | .pyInt _ => true
  | .pyBool _ => true
  | _ => false

/-- Python `isinstance(v, bool)`. -/
def isinstance_bool : PyVal → Bool
  | .pyBool _ => true
  | _ => false

/-- Python `isinstance(v, (int, float))`. -/
def isinstance_num : PyVal → Bool
  | .pyInt _ => true
  | .pyBool _ => true
  | .pyFloat _ => true
  | _ => false

/-- Python `isinstance(v, str)`. -/
def isinstance_str : PyVal → Bool
  | .pyStr _ => true
  | _ => false

/-- Python equality `v == m` against an integer constant `m`, as used by
the membership test `button in MOUSE_BUTTONS`: numeric values compare by
value across `int`, `bool` and `float`; non-numeric values are unequal. -/
def pyEqNat : PyVal → Nat → Bool
  | .pyInt n, m => decide (n = (m : Int))
  | .pyBool b, m => decide ((if b then (1 : Int) else 0) = (m : Int))
  | .pyFloat q, m => decide (q = (m : Rat))
  | _, _ => false

/-- Python `v in l` for a list of integer constants. -/
def pyInList (v : PyVal) (l : List Nat) : Bool :=
  l.any (pyEqNat v)

/-- Character code of an ASCII digit test. -/
def isAsciiDigit (c : Nat) : Bool := 0x30 ≤ c && c ≤ 0x39

/-- Value of a nonempty list of ASCII digit code points, most significant
first. -/
def digitsToNat (s : List Nat) : Nat :=
  s.foldl (fun a c => 10 * a + (c - 0x30)) 0

/-- Python `int()` applied to a string: an optional minus sign followed by
one or more digits parses to the signed value; any other string raises
`ValueError`. (Python additionally strips surrounding whitespace and
allows underscores between digits and a leading plus sign; no string
considered in this development uses those forms, on which this model would
be stricter than Python.) -/
def pyIntOfStr : List Nat → Except PyErr Int
  | 0x2D :: rest =>
    if !rest.isEmpty && rest.all isAsciiDigit then
      .ok (-(digitsToNat rest : Int))
    else
      .error .valueError
  | s =>
    if !s.isEmpty && s.all isAsciiDigit then
      .ok ((digitsToNat s : Int))
    else
      .error .valueError

/-- Truncation of a rational toward zero: the value of Python `int()` on a
(finite) float. -/
def ratTrunc (q : Rat) : Int :=
  if q < 0 then q.ceil else q.floor

/-- Python `int(v)`: identity on `int`, 0 or 1 on `bool`, truncation toward
zero on `float`, literal parse on `str` (raising `ValueError` on a
non-numeric string), and `TypeError` on any other type. -/
def pyToInt : PyVal → Except PyErr Int
  | .pyInt n => .ok n
  | .pyBool b => .ok (if b then 1 else 0)
  | .pyFloat q => .ok (ratTrunc q)
  | .pyStr s => pyIntOfStr s
  | .other => .error .typeError

/-- Python comparison `v < m` against an integer constant: defined for
numeric values, `TypeError` otherwise (for example on a string). -/
def pyCmpLtInt : PyVal → Int → Except PyErr Bool
  | .pyInt n, m => .ok (decide (n < m))
  | .pyBool b, m => .ok (decide ((if b then (1 : Int) else 0) < m))
  | .pyFloat q, m => .ok (decide (q < (m : Rat)))
  | _, _ => .error .typeError

/-- Python comparison `v > m` against an integer constant: defined for
numeric values, `TypeError` otherwise. -/
def pyCmpGtInt : PyVal → Int → Except PyErr Bool
  | .pyInt n, m => .ok (decide (m < n))
  | .pyBool b, m => .ok (decide (m < (if b then (1 : Int) else 0)))
  | .pyFloat q, m => .ok (decide ((m : Rat) < q))
  | _, _ => .error .typeError

/-- The validation expression `not isinstance(v, int) and v < lo or v > hi`
that both files' `type` methods apply to the WPM and accuracy arguments,
with Python's operator precedence (`and` binds tighter than `or`) and
short-circuit evaluation; returns whether the guard fires, or the error the
comparison itself raises. -/
def pyRangeGuard (v : PyVal) (lo hi : Int) : Except PyErr Bool :=
  if isinstance_int v then
    pyCmpGtInt v hi
  else
    match pyCmpLtInt v lo with
    | .error e => .error e
    | .ok true => .ok true
    | .ok false => pyCmpGtInt v hi

/-- Code points of a value known to be a string (callers guard with
`isinstance_str`). -/
def strBytes : PyVal → List Nat
  | .pyStr s => s
  | _ => []

/-- A `threading.Event.wait()` call returns immediately, without blocking,
exactly when the event's internal flag is currently set. -/
def event_wait_returns_immediately (flag : Bool) : Bool := flag

/-- The calibration provider's current values: screen width and height
(`tkinter.winfo_screenwidth`/`winfo_screenheight` in `arduLeo.py`,
`win32api.GetSystemMetrics` in `test2.py`) and pointer position
(`winfo_pointerxy` resp. `win32api.GetCursorPos`). All four are Python
ints supplied by the host environment. -/
structure Calib where
  width : Int
  height : Int
  x : Int
  y : Int
deriving DecidableEq

/-- Effect of the reader loop processing one byte: bytes it wrote back to
the transport, the error that killed the loop if one was raised, the event
flag after the step, and whether `Event.set()` was invoked during the
step. -/
structure StepResult where
  written : List Nat
  err : Option PyErr
  gate : Bool
  signaled : Bool
deriving DecidableEq

namespace ArduLeo

def MOUSE_CMD : Nat := 0xE0
def MOUSE_CALIBRATE : Nat := 0xE1
def MOUSE_PRESS : Nat := 0xE2
def MOUSE_RELEASE : Nat := 0xE3
def MOUSE_CLICK : Nat := 0xE4
def MOUSE_FAST_CLICK : Nat := 0xE5
def MOUSE_MOVE : Nat := 0xE6
def MOUSE_BEZIER : Nat := 0xE7

def MOUSE_LEFT : Nat := 0xEA
def MOUSE_RIGHT : Nat := 0xEB
def MOUSE_MIDDLE : Nat := 0xEC

def MOUSE_BUTTONS : List Nat := [MOUSE_LEFT, MOUSE_MIDDLE, MOUSE_RIGHT]

def KEYBOARD_CMD : Nat := 0xF0
def KEYBOARD_PRESS : Nat := 0xF1
def KEYBOARD_RELEASE : Nat := 0xF2
def KEYBOARD_RELEASE_ALL : Nat := 0xF3
def KEYBOARD_PRINT : Nat := 0xF4
def KEYBOARD_PRINTLN : Nat := 0xF5
def KEYBOARD_WRITE : Nat := 0xF6
def KEYBOARD_TYPE : Nat := 0xF7

def SCREEN_CALIBRATE : Nat := 0xFF
def COMMAND_COMPLETE : Nat := 0xFE

/-- The method `__write_byte`: `struct.pack('<B', byte)` then a transport
write. `struct.pack` accepts an `int` (hence also a `bool`) in `[0, 255]`
and raises `struct.error` on an out-of-range integer or a non-integer
argument; on success exactly one byte reaches the wire. -/
def write_byte (byte : PyVal) : Outcome :=
  match byte with
  | .pyInt n =>
    if n < 0 ∨ 255 < n then ⟨[], .error .structError⟩ else ⟨[n.toNat], .ok ()⟩
  | .pyBool b => ⟨[if b then 1 else 0], .ok ()⟩
  | _ => ⟨[], .error .structError⟩

/-- The method `__write_short`: `struct.pack('<H', int(short))` then a
transport write. `int(short)` converts the argument first (and can itself
raise); the pack raises `struct.error` outside `[0, 65535]` and otherwise
emits the value as two little-endian bytes. -/
def write_short (short : PyVal) : Outcome :=
  match pyToInt short with
  | .error e => ⟨[], .error e⟩
  | .ok n =>
    if n < 0 ∨ 65535 < n then
      ⟨[], .error .structError⟩
    else
      ⟨[n.toNat % 256, n.toNat / 256], .ok ()⟩

/-- The method `__write_str`: `__write_byte(ord(char))` for each character
in order, then the `0x00` sentinel. -/
def write_str (string : List Nat) : Outcome :=
  seqWrites (string.map (fun (c : Nat) => write_byte (.pyInt (c : Int))) ++
    [write_byte (.pyInt 0)])

/-- The method `press` of `arduLeo.Arduino`. -/
def press (button : PyVal) : Outcome :=
  if pyInList button MOUSE_BUTTONS then
    seqWrites [write_byte (.pyInt (MOUSE_CMD : Int)),
      write_byte (.pyInt (MOUSE_PRESS : Int)), write_byte button]
  else
    match button with
    | .pyInt _ | .pyBool _ =>
      seqWrites [write_byte (.pyInt (KEYBOARD_CMD : Int)),
        write_byte (.pyInt (KEYBOARD_PRESS : Int)), write_byte button]
    | .pyStr [c] =>
      seqWrites [write_byte (.pyInt (KEYBOARD_CMD : Int)),
        write_byte (.pyInt (KEYBOARD_PRESS : Int)), write_byte (.pyInt (c : Int))]
    | _ => ⟨[], .error .valueError⟩

/-- The method `release` of `arduLeo.Arduino`. -/
def release (button : PyVal) : Outcome :=
  if pyInList button MOUSE_BUTTONS then
    seqWrites [write_byte (.pyInt (MOUSE_CMD : Int)),
      write_byte (.pyInt (MOUSE_RELEASE : Int)), write_byte button]
  else
    match button with
    | .pyInt _ | .pyBool _ =>
      seqWrites [write_byte (.pyInt (KEYBOARD_CMD : Int)),
        write_byte (.pyInt (KEYBOARD_RELEASE : Int)), write_byte button]
    | .pyStr [c] =>
      seqWrites [write_byte (.pyInt (KEYBOARD_CMD : Int)),
        write_byte (.pyInt (KEYBOARD_RELEASE : Int)), write_byte (.pyInt (c : Int))]
    | _ => ⟨[], .error .valueError⟩

/-- The method `release_all` of `arduLeo.Arduino`. -/
def release_all : Outcome :=
  seqWrites [write_byte (.pyInt (KEYBOARD_CMD : Int)),
    write_byte (.pyInt (KEYBOARD_RELEASE_ALL : Int))]

/-- The method `write` of `arduLeo.Arduino`. The `endl` flag only selects
between the PRINT and PRINTLN sub-opcodes on the multi-character string
branch. -/
def write (keys : PyVal) (endl : Bool) : Outcome :=
  match keys with
  | .pyInt _ | .pyBool _ =>
    seqWrites [write_byte (.pyInt (KEYBOARD_CMD : Int)),
      write_byte (.pyInt (KEYBOARD_WRITE : Int)), write_byte keys]
  | .pyStr [c] =>
    seqWrites [write_byte (.pyInt (KEYBOARD_CMD : Int)),
      write_byte (.pyInt (KEYBOARD_WRITE : Int)), write_byte (.pyInt (c : Int))]
  | .pyStr s =>
    if !endl then
      seqWrites [write_byte (.pyInt (KEYBOARD_CMD : Int)),
        write_byte (.pyInt (KEYBOARD_PRINT : Int)), write_str s]
    else
      seqWrites [write_byte (.pyInt (KEYBOARD_CMD : Int)),
        write_byte (.pyInt (KEYBOARD_PRINTLN : Int)), write_str s]
  | _ => ⟨[], .error .valueError⟩

/-- The method `type` of `arduLeo.Arduino`, with its four validation
guards in source order; the WPM and accuracy guards are the expression
`not isinstance(v, int) and v < lo or v > hi` modelled by
`pyRangeGuard`. -/
def type (message wpm mistakes accuracy : PyVal) : Outcome :=
  if !isinstance_str message then
    ⟨[], .error .valueError⟩
  else
    match pyRangeGuard wpm 1 255 with
    | .error e => ⟨[], .error e⟩
    | .ok true => ⟨[], .error .valueError⟩
    | .ok false =>
      if !isinstance_bool mistakes then
        ⟨[], .error .valueError⟩
      else
        match pyRangeGuard accuracy 1 100 with
        | .error e => ⟨[], .error e⟩
        | .ok true => ⟨[], .error .valueError⟩
        | .ok false =>
          seqWrites [write_byte (.pyInt (KEYBOARD_CMD : Int)),
            write_byte (.pyInt (KEYBOARD_TYPE : Int)),
            write_str (strBytes message), write_byte wpm,
            write_byte mistakes, write_byte accuracy]

/-- The method `click` of `arduLeo.Arduino`. -/
def click (button : PyVal) : Outcome :=
  if !pyInList button MOUSE_BUTTONS then
    ⟨[], .error .valueError⟩
  else
    seqWrites [write_byte (.pyInt (MOUSE_CMD : Int)),
      write_byte (.pyInt (MOUSE_CLICK : Int)), write_byte button]

/-- The method `fast_click` of `arduLeo.Arduino`. -/
def fast_click (button : PyVal) : Outcome :=
  if !pyInList button MOUSE_BUTTONS then
    ⟨[], .error .valueError⟩
  else
    seqWrites [write_byte (.pyInt (MOUSE_CMD : Int)),
      write_byte (.pyInt (MOUSE_FAST_CLICK : Int)), write_byte button]

/-- The method `move` of `arduLeo.Arduino`: note the guard rejects only
when BOTH coordinates fail `isinstance(_, (int, float))`, as the source
combines the two checks with `and`. -/
def move (dest_x dest_y : PyVal) : Outcome :=
  if !isinstance_num dest_x && !isinstance_num dest_y then
    ⟨[], .error .valueError⟩
  else
    seqWrites [write_byte (.pyInt (MOUSE_CMD : Int)),
      write_byte (.pyInt (MOUSE_MOVE : Int)),
      write_short dest_x, write_short dest_y]

/-- The method `bezier_move` of `arduLeo.Arduino`, same shape as `move`
with the BEZIER sub-opcode. -/
def bezier_move (dest_x dest_y : PyVal) : Outcome :=
  if !isinstance_num dest_x && !isinstance_num dest_y then
    ⟨[], .error .valueError⟩
  else
    seqWrites [write_byte (.pyInt (MOUSE_CMD : Int)),
      write_byte (.pyInt (MOUSE_BEZIER : Int)),
      write_short dest_x, write_short dest_y]

/-- The method `__calibrate_screen`: writes the provider's screen width
then height, each through `__write_short`. -/
def calibrate_screen (c : Calib) : Outcome :=
  seqWrites [write_short (.pyInt c.width), write_short (.pyInt c.height)]

/-- The method `__calibrate_mouse`: writes the provider's pointer x then
y, each through `__write_short`. -/
def calibrate_mouse (c : Calib) : Outcome :=
  seqWrites [write_short (.pyInt c.x), write_short (.pyInt c.y)]

/-- One iteration of the `__read_buffer` loop on the byte `b` just read,
with the event flag currently `g`: the branches in source order test
MOUSE_CALIBRATE, SCREEN_CALIBRATE and COMMAND_COMPLETE; the last performs
`Event.set()` immediately followed by `Event.clear()`, so the flag ends
the step cleared. -/
def read_buffer_step (c : Calib) (g : Bool) (b : Nat) : StepResult :=
  if b = MOUSE_CALIBRATE then
    let o := calibrate_mouse c
    ⟨o.written, match o.result with | .ok _ => none | .error e => some e, g, false⟩
  else if b = SCREEN_CALIBRATE then
    let o := calibrate_screen c
    ⟨o.written, match o.result with | .ok _ => none | .error e => some e, g, false⟩
  else if b = COMMAND_COMPLETE then
    ⟨[], none, false, true⟩
  else
    ⟨[], none, g, false⟩

end ArduLeo

namespace Test2

namespace Keymouse

def MOUSE_CMD : Nat := 0xE0
def MOUSE_CALIBRATE : Nat := 0xE1
def MOUSE_PRESS : Nat := 0xE2
def MOUSE_RELEASE : Nat := 0xE3
def MOUSE_CLICK : Nat := 0xE4
def MOUSE_FAST_CLICK : Nat := 0xE5
def MOUSE_MOVE : Nat := 0xE6
def MOUSE_BEZIER : Nat := 0xE7

def MOUSE_LEFT : Nat := 0xEA
def MOUSE_RIGHT : Nat := 0xEB
def MOUSE_MIDDLE : Nat := 0xEC

def MOUSE_BUTTONS : List Nat := [MOUSE_LEFT, MOUSE_MIDDLE, MOUSE_RIGHT]

def KEYBOARD_CMD : Nat := 0xF0
def KEYBOARD_PRESS : Nat := 0xF1
def KEYBOARD_RELEASE : Nat := 0xF2
def KEYBOARD_RELEASE_ALL : Nat := 0xF3
def KEYBOARD_PRINT : Nat := 0xF4
def KEYBOARD_PRINTLN : Nat := 0xF5
def KEYBOARD_WRITE : Nat := 0xF6
def KEYBOARD_TYPE : Nat := 0xF7

def SCREEN_CALIBRATE : Nat := 0xFF
def COMMAND_COMPLETE : Nat := 0xFE

end Keymouse

/-- The method `__write_byte` of `test2.Arduino`, character-identical to
the one in `arduLeo.py`. -/
def write_byte (byte : PyVal) : Outcome :=
  match byte with
  | .pyInt n =>
    if n < 0 ∨ 255 < n then ⟨[], .error .structError⟩ else ⟨[n.toNat], .ok ()⟩
  | .pyBool b => ⟨[if b then 1 else 0], .ok ()⟩
  | _ => ⟨[], .error .structError⟩

/-- The method `__write_short` of `test2.Arduino`. -/
def write_short (short : PyVal) : Outcome :=
  match pyToInt short with
  | .error e => ⟨[], .error e⟩
  | .ok n =>
    if n < 0 ∨ 65535 < n then
      ⟨[], .error .structError⟩
    else
      ⟨[n.toNat % 256, n.toNat / 256], .ok ()⟩

/-- The method `__write_str` of `test2.Arduino`. -/
def write_str (string : List Nat) : Outcome :=
  seqWrites (string.map (fun (c : Nat) => write_byte (.pyInt (c : Int))) ++
    [write_byte (.pyInt 0)])

/-- The method `press` of `test2.Arduino`, referencing the `Keymouse`
class constants. -/
def press (button : PyVal) : Outcome :=
  if pyInList button Keymouse.MOUSE_BUTTONS then
    seqWrites [write_byte (.pyInt (Keymouse.MOUSE_CMD : Int)),
      write_byte (.pyInt (Keymouse.MOUSE_PRESS : Int)), write_byte button]
  else
    match button with
    | .pyInt _ | .pyBool _ =>
      seqWrites [write_byte (.pyInt (Keymouse.KEYBOARD_CMD : Int)),
        write_byte (.pyInt (Keymouse.KEYBOARD_PRESS : Int)), write_byte button]
    | .pyStr [c] =>
      seqWrites [write_byte (.pyInt (Keymouse.KEYBOARD_CMD : Int)),
        write_byte (.pyInt (Keymouse.KEYBOARD_PRESS : Int)),
        write_byte (.pyInt (c : Int))]
    | _ => ⟨[], .error .valueError⟩

/-- The method `release` of `test2.Arduino`. -/
def release (button : PyVal) : Outcome :=
  if pyInList button Keymouse.MOUSE_BUTTONS then
    seqWrites [write_byte (.pyInt (Keymouse.MOUSE_CMD : Int)),
      write_byte (.pyInt (Keymouse.MOUSE_RELEASE : Int)), write_byte button]
  else
    match button with
    | .pyInt _ | .pyBool _ =>
      seqWrites [write_byte (.pyInt (Keymouse.KEYBOARD_CMD : Int)),
        write_byte (.pyInt (Keymouse.KEYBOARD_RELEASE : Int)), write_byte button]
    | .pyStr [c] =>
      seqWrites [write_byte (.pyInt (Keymouse.KEYBOARD_CMD : Int)),
        write_byte (.pyInt (Keymouse.KEYBOARD_RELEASE : Int)),
        write_byte (.pyInt (c : Int))]
    | _ => ⟨[], .error .valueError⟩

/-- The method `release_all` of `test2.Arduino`. -/
def release_all : Outcome :=
  seqWrites [write_byte (.pyInt (Keymouse.KEYBOARD_CMD : Int)),
    write_byte (.pyInt (Keymouse.KEYBOARD_RELEASE_ALL : Int))]

/-- The method `write` of `test2.Arduino`. -/
def write (keys : PyVal) (endl : Bool) : Outcome :=
  match keys with
  | .pyInt _ | .pyBool _ =>
    seqWrites [write_byte (.pyInt (Keymouse.KEYBOARD_CMD : Int)),
      write_byte (.pyInt (Keymouse.KEYBOARD_WRITE : Int)), write_byte keys]
  | .pyStr [c] =>
    seqWrites [write_byte (.pyInt (Keymouse.KEYBOARD_CMD : Int)),
      write_byte (.pyInt (Keymouse.KEYBOARD_WRITE : Int)),
      write_byte (.pyInt (c : Int))]
  | .pyStr s =>
    if !endl then
      seqWrites [write_byte (.pyInt (Keymouse.KEYBOARD_CMD : Int)),
        write_byte (.pyInt (Keymouse.KEYBOARD_PRINT : Int)), write_str s]
    else
      seqWrites [write_byte (.pyInt (Keymouse.KEYBOARD_CMD : Int)),
        write_byte (.pyInt (Keymouse.KEYBOARD_PRINTLN : Int)), write_str s]
  | _ => ⟨[], .error .valueError⟩

/-- The method `type` of `test2.Arduino`, with the same four validation
guards as in `arduLeo.py`. -/
def type (message wpm mistakes accuracy : PyVal) : Outcome :=
  if !isinstance_str message then
    ⟨[], .error .valueError⟩
  else
    match pyRangeGuard wpm 1 255 with
    | .error e => ⟨[], .error e⟩
    | .ok true => ⟨[], .error .valueError⟩
    | .ok false =>
      if !isinstance_bool mistakes then
        ⟨[], .error .valueError⟩
      else
        match pyRangeGuard accuracy 1 100 with
        | .error e => ⟨[], .error e⟩
        | .ok true => ⟨[], .error .valueError⟩
        | .ok false =>
          seqWrites [write_byte (.pyInt (Keymouse.KEYBOARD_CMD : Int)),
            write_byte (.pyInt (Keymouse.KEYBOARD_TYPE : Int)),
            write_str (strBytes message), write_byte wpm,
            write_byte mistakes, write_byte accuracy]

/-- The method `click` of `test2.Arduino`. -/
def click (button : PyVal) : Outcome :=
  if !pyInList button Keymouse.MOUSE_BUTTONS then
    ⟨[], .error .valueError⟩
  else
    seqWrites [write_byte (.pyInt (Keymouse.MOUSE_CMD : Int)),
      write_byte (.pyInt (Keymouse.MOUSE_CLICK : Int)), write_byte button]

/-- The method `fast_click` of `test2.Arduino`. -/
def fast_click (button : PyVal) : Outcome :=
  if !pyInList button Keymouse.MOUSE_BUTTONS then
    ⟨[], .error .valueError⟩
  else
    seqWrites [write_byte (.pyInt (Keymouse.MOUSE_CMD : Int)),
      write_byte (.pyInt (Keymouse.MOUSE_FAST_CLICK : Int)), write_byte button]

/-- The method `move` of `test2.Arduino`, with the same `and`-combined
guard as in `arduLeo.py`. -/
def move (dest_x dest_y : PyVal) : Outcome :=
  if !isinstance_num dest_x && !isinstance_num dest_y then
    ⟨[], .error .valueError⟩
  else
    seqWrites [write_byte (.pyInt (Keymouse.MOUSE_CMD : Int)),
      write_byte (.pyInt (Keymouse.MOUSE_MOVE : Int)),
      write_short dest_x, write_short dest_y]

/-- The method `bezier_move` of `test2.Arduino`. -/
def bezier_move (dest_x dest_y : PyVal) : Outcome :=
  if !isinstance_num dest_x && !isinstance_num dest_y then
    ⟨[], .error .valueError⟩
  else
    seqWrites [write_byte (.pyInt (Keymouse.MOUSE_CMD : Int)),
      write_byte (.pyInt (Keymouse.MOUSE_BEZIER : Int)),
      write_short dest_x, write_short dest_y]

/-- The method `__calibrate_screen` of `test2.Arduino`: the data comes
from `win32api.GetSystemMetrics` instead of tkinter, but the same two
values are written the same way. -/
def calibrate_screen (c : Calib) : Outcome :=
  seqWrites [write_short (.pyInt c.width), write_short (.pyInt c.height)]

/-- The method `__calibrate_mouse` of `test2.Arduino`: the data comes
from `win32api.GetCursorPos`. -/
def calibrate_mouse (c : Calib) : Outcome :=
  seqWrites [write_short (.pyInt c.x), write_short (.pyInt c.y)]

/-- One iteration of the `__read_buffer` loop of `test2.Arduino`. -/
def read_buffer_step (c : Calib) (g : Bool) (b : Nat) : StepResult :=
  if b = Keymouse.MOUSE_CALIBRATE then
    let o := calibrate_mouse c
    ⟨o.written, match o.result with | .ok _ => none | .error e => some e, g, false⟩
  else if b = Keymouse.SCREEN_CALIBRATE then
    let o := calibrate_screen c
    ⟨o.written, match o.result with | .ok _ => none | .error e => some e, g, false⟩
  else if b = Keymouse.COMMAND_COMPLETE then
    ⟨[], none, false, true⟩
  else
    ⟨[], none, g, false⟩

end Test2


/-- Helper: a byte-range integer passes `struct.pack` and emits itself. -/
theorem write_byte_ok (c : Nat) (hc : c ≤ 255) :
    ArduLeo.write_byte (.pyInt (c : Int)) = ⟨[c], .ok ()⟩ := by
  simp only [ArduLeo.write_byte]
  rw [if_neg (by omega)]
  simp

/-- Helper: a short-range integer passes `struct.pack` and emits its two
little-endian bytes. -/
theorem write_short_ok (n : Int) (h0 : 0 ≤ n) (h1 : n ≤ 65535) :
    ArduLeo.write_short (.pyInt n) = ⟨[n.toNat % 256, n.toNat / 256], .ok ()⟩ := by
  simp only [ArduLeo.write_short, pyToInt]
  rw [if_neg (by omega)]

/-- Helper: sequencing after a successful write prepends its bytes. -/
theorem seqWrites_cons_ok (bs : List Nat) (L : List Outcome) :
    seqWrites (⟨bs, .ok ()⟩ :: L) =
      ⟨bs ++ (seqWrites L).written, (seqWrites L).result⟩ := rfl

/-- Helper: sequencing stops at a raising write, keeping its bytes. -/
theorem seqWrites_cons_err (bs : List Nat) (e : PyErr) (L : List Outcome) :
    seqWrites (⟨bs, .error e⟩ :: L) = ⟨bs, .error e⟩ := rfl

/-- Helper: on a string whose code points all fit in a byte, `__write_str`
emits the code points followed by the sentinel and raises nothing. -/
theorem write_str_ok (s : List Nat) (h : ∀ c ∈ s, c ≤ 255) :
    ArduLeo.write_str s = ⟨s ++ [0], .ok ()⟩ := by
  induction s with
  | nil => rfl
  | cons c rest ih =>
    have hc : c ≤ 255 := h c (by simp)
    have hrest : ∀ x ∈ rest, x ≤ 255 := fun x hx => h x (by simp [hx])
    have hr := ih hrest
    simp only [ArduLeo.write_str] at hr ⊢
    rw [List.map_cons, List.cons_append, write_byte_ok c hc, seqWrites_cons_ok, hr]
    rfl

/-- Helper: an integer outside the mouse-button set is not `in
MOUSE_BUTTONS`. -/
theorem pyInList_buttons_false (k : Int)
    (hk : ¬(k = 0xEA ∨ k = 0xEB ∨ k = 0xEC)) :
    pyInList (.pyInt k) ArduLeo.MOUSE_BUTTONS = false := by
  simp only [pyInList, ArduLeo.MOUSE_BUTTONS, ArduLeo.MOUSE_LEFT,
    ArduLeo.MOUSE_MIDDLE, ArduLeo.MOUSE_RIGHT, List.any_cons, List.any_nil,
    pyEqNat, Bool.or_eq_false_iff, decide_eq_false_iff_not]
  push_neg at hk
  refine ⟨?_, ?_, ?_, trivial⟩ <;> omega

/-- C1 (corrected), counterexample: at the concrete integer 300 — which is
neither a mouse-button code nor any valid key code — `press` does not
raise ValueError and does not leave the transport untouched: it writes the
two keyboard-press header bytes and then raises `struct.error` from
`struct.pack`. -/
theorem claim_C1_counterexample :
    ArduLeo.press (.pyInt 300) = ⟨[0xF0, 0xF1], .error .structError⟩ ∧
    ¬((ArduLeo.press (.pyInt 300)).result = .error .valueError ∧
      (ArduLeo.press (.pyInt 300)).written = []) := by
  decide

/-- C1 (corrected), amended claim: for every integer k that is not one of
the three mouse-button codes, `click(k)` raises ValueError and writes
nothing; `press(k)` never applies key-code validation: for k in [0, 255]
it writes the keyboard-press command [0xF0, 0xF1, k] and raises nothing,
and for k outside [0, 255] it writes [0xF0, 0xF1] and then raises
`struct.error` while packing k. -/
theorem claim_C1_amended (k : Int)
    (hk : ¬(k = 0xEA ∨ k = 0xEB ∨ k = 0xEC)) :
    ArduLeo.click (.pyInt k) = ⟨[], .error .valueError⟩ ∧
    (0 ≤ k ∧ k ≤ 255 →
      ArduLeo.press (.pyInt k) = ⟨[0xF0, 0xF1, k.toNat], .ok ()⟩) ∧
    (k < 0 ∨ 255 < k →
      ArduLeo.press (.pyInt k) = ⟨[0xF0, 0xF1], .error .structError⟩) := by
  have hmem := pyInList_buttons_false k hk
  refine ⟨?_, ?_, ?_⟩
  · simp [ArduLeo.click, hmem]
  · intro hr
    have hb : ArduLeo.write_byte (.pyInt k) = ⟨[k.toNat], .ok ()⟩ := by
      simp only [ArduLeo.write_byte]
      rw [if_neg (by omega)]
    have e1 : ArduLeo.write_byte (.pyInt (ArduLeo.KEYBOARD_CMD : Int)) =
        ⟨[0xF0], .ok ()⟩ := by decide
    have e2 : ArduLeo.write_byte (.pyInt (ArduLeo.KEYBOARD_PRESS : Int)) =
        ⟨[0xF1], .ok ()⟩ := by decide
    simp [ArduLeo.press, hmem, e1, e2, hb, seqWrites_cons_ok, seqWrites_cons_err,
      seqWrites]
  · intro hr
    have hb : ArduLeo.write_byte (.pyInt k) = ⟨[], .error .structError⟩ := by
      simp only [ArduLeo.write_byte]
      rw [if_pos (by omega)]
    have e1 : ArduLeo.write_byte (.pyInt (ArduLeo.KEYBOARD_CMD : Int)) =
        ⟨[0xF0], .ok ()⟩ := by decide
    have e2 : ArduLeo.write_byte (.pyInt (ArduLeo.KEYBOARD_PRESS : Int)) =
        ⟨[0xF1], .ok ()⟩ := by decide
    simp [ArduLeo.press, hmem, e1, e2, hb, seqWrites_cons_ok, seqWrites_cons_err,
      seqWrites]

/-- C1 witness: the amended claim instantiated at k = 300. -/
theorem claim_C1_witness :
    ArduLeo.click (.pyInt 300) = ⟨[], .error .valueError⟩ ∧
    ArduLeo.press (.pyInt 300) = ⟨[0xF0, 0xF1], .error .structError⟩ := by
  have h := claim_C1_amended 300 (by decide)
  exact ⟨h.1, h.2.2 (by decide)⟩

/-- C2 (code bug): the claim says a `move` call with at least one
non-numeric coordinate raises ValueError and writes nothing, which is the
intent of the guard; but the source combines the two isinstance checks
with `and`, so a single non-numeric coordinate slips through validation.
With the string "5" (which `int()` then parses) the full command is
written with no error at all, and with a `None`-like value the command
header [0xE0, 0xE6] reaches the wire before `int()` raises TypeError. -/
theorem claim_C2_and_guard_evaluation :
    ArduLeo.move (.pyStr [0x35]) (.pyInt 3) =
      ⟨[0xE0, 0xE6, 0x05, 0x00, 0x03, 0x00], .ok ()⟩ ∧
    ArduLeo.move .other (.pyInt 3) = ⟨[0xE0, 0xE6], .error .typeError⟩ := by
  decide

/-- C3 (code bug): the claim says `type` raises ValueError before writing
whenever WPM or accuracy is an integer outside its range, which is what
the guards' own error messages document; but the guard expression
`not isinstance(v, int) and v < 1 or v > hi` never fires for a too-small
integer, so type("a", 0, True, 96) and type("a", 80, True, 0) write the
complete command and raise nothing. -/
theorem claim_C3_range_guard_evaluation :
    ArduLeo.type (.pyStr [0x61]) (.pyInt 0) (.pyBool true) (.pyInt 96) =
      ⟨[0xF0, 0xF7, 0x61, 0x00, 0x00, 0x01, 0x60], .ok ()⟩ ∧
    ArduLeo.type (.pyStr [0x61]) (.pyInt 80) (.pyBool true) (.pyInt 0) =
      ⟨[0xF0, 0xF7, 0x61, 0x00, 0x50, 0x01, 0x00], .ok ()⟩ := by
  decide

/-- C4 (corrected), counterexample: after the reader loop handles a
CommandComplete byte with no caller waiting (event flag armed/false), the
event flag is false again, so the next wait() does NOT return
immediately — the claim asserts it would. -/
theorem claim_C4_counterexample :
    event_wait_returns_immediately
      ((ArduLeo.read_buffer_step ⟨0, 0, 0, 0⟩ false ArduLeo.COMMAND_COMPLETE).gate) =
      false := by
  decide

/-- C4 (corrected), amended claim: signalling the gate while no caller is
waiting raises no error, but the signal is lost: the reader loop performs
set() immediately followed by clear(), so from any prior flag state the
flag ends false and a wait() issued afterwards blocks instead of
returning immediately. -/
theorem claim_C4_amended (c : Calib) (g : Bool) :
    (ArduLeo.read_buffer_step c g ArduLeo.COMMAND_COMPLETE).err = none ∧
    (ArduLeo.read_buffer_step c g ArduLeo.COMMAND_COMPLETE).signaled = true ∧
    (ArduLeo.read_buffer_step c g ArduLeo.COMMAND_COMPLETE).gate = false ∧
    event_wait_returns_immediately
      ((ArduLeo.read_buffer_step c g ArduLeo.COMMAND_COMPLETE).gate) = false :=
  ⟨rfl, rfl, rfl, rfl⟩

/-- C5 (confirmed): for each of the three mouse-button codes, press writes
exactly [0xE0, 0xE2, b] and release exactly [0xE0, 0xE3, b], each then
reaching its blocking wait on the command-complete event, and the reader
loop sets that event on exactly the byte 0xFE and no other. -/
theorem claim_C5_press_release_buttons (b : Nat)
    (hb : b = 0xEA ∨ b = 0xEB ∨ b = 0xEC) :
    ArduLeo.press (.pyInt (b : Int)) = ⟨[0xE0, 0xE2, b], .ok ()⟩ ∧
    ArduLeo.release (.pyInt (b : Int)) = ⟨[0xE0, 0xE3, b], .ok ()⟩ ∧
    (∀ c g b', (ArduLeo.read_buffer_step c g b').signaled = true ↔
      b' = ArduLeo.COMMAND_COMPLETE) := by
  have hsig : ∀ c g b', (ArduLeo.read_buffer_step c g b').signaled = true ↔
      b' = ArduLeo.COMMAND_COMPLETE := by
    intro c g b'
    simp only [ArduLeo.read_buffer_step, ArduLeo.MOUSE_CALIBRATE,
      ArduLeo.SCREEN_CALIBRATE, ArduLeo.COMMAND_COMPLETE]
    split_ifs with h1 h2 h3 <;> simp_all
  rcases hb with h | h | h <;> subst h <;> exact ⟨by decide, by decide, hsig⟩

/-- C5 witness: the theorem instantiated at the left-button code 0xEA. -/
theorem claim_C5_witness :
    ArduLeo.press (.pyInt 0xEA) = ⟨[0xE0, 0xE2, 0xEA], .ok ()⟩ ∧
    ArduLeo.release (.pyInt 0xEA) = ⟨[0xE0, 0xE3, 0xEA], .ok ()⟩ := by
  have h := claim_C5_press_release_buttons 0xEA (Or.inl rfl)
  exact ⟨h.1, h.2.1⟩

/-- C6 (confirmed): a string of two or more characters, all with byte-size
code points, is written as the keyboard command byte, the PRINTLN or PRINT
sub-opcode according to the endl flag, the characters' byte values, and a
single 0x00 sentinel; the two quoted "AB" byte sequences are the
instances at endl true and false. -/
theorem claim_C6_write_string (s : List Nat) (endl : Bool)
    (hlen : 2 ≤ s.length) (hcp : ∀ c ∈ s, c ≤ 255) :
    ArduLeo.write (.pyStr s) endl =
      ⟨[0xF0, if endl then 0xF5 else 0xF4] ++ s ++ [0x00], .ok ()⟩ := by
  have e1 : ArduLeo.write_byte (.pyInt (ArduLeo.KEYBOARD_CMD : Int)) =
      ⟨[0xF0], .ok ()⟩ := by decide
  have e4 : ArduLeo.write_byte (.pyInt (ArduLeo.KEYBOARD_PRINT : Int)) =
      ⟨[0xF4], .ok ()⟩ := by decide
  have e5 : ArduLeo.write_byte (.pyInt (ArduLeo.KEYBOARD_PRINTLN : Int)) =
      ⟨[0xF5], .ok ()⟩ := by decide
  match s, hlen with
  | c1 :: c2 :: rest, _ =>
    have hw := write_str_ok (c1 :: c2 :: rest) hcp
    cases endl with
    | false =>
      show seqWrites [ArduLeo.write_byte (.pyInt (ArduLeo.KEYBOARD_CMD : Int)),
        ArduLeo.write_byte (.pyInt (ArduLeo.KEYBOARD_PRINT : Int)),
        ArduLeo.write_str (c1 :: c2 :: rest)] = _
      rw [e1, e4, hw, seqWrites_cons_ok, seqWrites_cons_ok, seqWrites_cons_ok]
      simp [seqWrites]
    | true =>
      show seqWrites [ArduLeo.write_byte (.pyInt (ArduLeo.KEYBOARD_CMD : Int)),
        ArduLeo.write_byte (.pyInt (ArduLeo.KEYBOARD_PRINTLN : Int)),
        ArduLeo.write_str (c1 :: c2 :: rest)] = _
      rw [e1, e5, hw, seqWrites_cons_ok, seqWrites_cons_ok, seqWrites_cons_ok]
      simp [seqWrites]

/-- C6 witness: the theorem instantiated at the string "AB" for both endl
values. -/
theorem claim_C6_witness :
    ArduLeo.write (.pyStr [0x41, 0x42]) true =
      ⟨[0xF0, 0xF5, 0x41, 0x42, 0x00], .ok ()⟩ ∧
    ArduLeo.write (.pyStr [0x41, 0x42]) false =
      ⟨[0xF0, 0xF4, 0x41, 0x42, 0x00], .ok ()⟩ :=
  ⟨claim_C6_write_string [0x41, 0x42] true (by decide) (by decide),
   claim_C6_write_string [0x41, 0x42] false (by decide) (by decide)⟩

/-- C7 (confirmed): for coordinates in [0, 65535], move writes the mouse
command byte, the 0xE6 sub-opcode, and x then y each as an unsigned
16-bit little-endian value; bezier_move writes the same with sub-opcode
0xE7; and a float coordinate is truncated toward zero by the `int()` call
inside the short encoder before packing, for both methods. -/
theorem claim_C7_move_encoding (x y : Int)
    (hx : 0 ≤ x ∧ x ≤ 65535) (hy : 0 ≤ y ∧ y ≤ 65535) :
    ArduLeo.move (.pyInt x) (.pyInt y) =
      ⟨[0xE0, 0xE6, x.toNat % 256, x.toNat / 256, y.toNat % 256, y.toNat / 256],
        .ok ()⟩ ∧
    ArduLeo.bezier_move (.pyInt x) (.pyInt y) =
      ⟨[0xE0, 0xE7, x.toNat % 256, x.toNat / 256, y.toNat % 256, y.toNat / 256],
        .ok ()⟩ ∧
    (∀ q : Rat, ArduLeo.write_short (.pyFloat q) =
      ArduLeo.write_short (.pyInt (ratTrunc q))) ∧
    (∀ qx qy : Rat, ArduLeo.move (.pyFloat qx) (.pyFloat qy) =
      ArduLeo.move (.pyInt (ratTrunc qx)) (.pyInt (ratTrunc qy))) ∧
    (∀ qx qy : Rat, ArduLeo.bezier_move (.pyFloat qx) (.pyFloat qy) =
      ArduLeo.bezier_move (.pyInt (ratTrunc qx)) (.pyInt (ratTrunc qy))) := by
  have eE0 : ArduLeo.write_byte (.pyInt (ArduLeo.MOUSE_CMD : Int)) =
      ⟨[0xE0], .ok ()⟩ := by decide
  have eE6 : ArduLeo.write_byte (.pyInt (ArduLeo.MOUSE_MOVE : Int)) =
      ⟨[0xE6], .ok ()⟩ := by decide
  have eE7 : ArduLeo.write_byte (.pyInt (ArduLeo.MOUSE_BEZIER : Int)) =
      ⟨[0xE7], .ok ()⟩ := by decide
  have hxs := write_short_ok x hx.1 hx.2
  have hys := write_short_ok y hy.1 hy.2
  refine ⟨?_, ?_, fun q => rfl, fun qx qy => rfl, fun qx qy => rfl⟩
  · show seqWrites [ArduLeo.write_byte (.pyInt (ArduLeo.MOUSE_CMD : Int)),
      ArduLeo.write_byte (.pyInt (ArduLeo.MOUSE_MOVE : Int)),
      ArduLeo.write_short (.pyInt x), ArduLeo.write_short (.pyInt y)] = _
    rw [eE0, eE6, hxs, hys, seqWrites_cons_ok, seqWrites_cons_ok,
      seqWrites_cons_ok, seqWrites_cons_ok]
    simp [seqWrites]
  · show seqWrites [ArduLeo.write_byte (.pyInt (ArduLeo.MOUSE_CMD : Int)),
      ArduLeo.write_byte (.pyInt (ArduLeo.MOUSE_BEZIER : Int)),
      ArduLeo.write_short (.pyInt x), ArduLeo.write_short (.pyInt y)] = _
    rw [eE0, eE7, hxs, hys, seqWrites_cons_ok, seqWrites_cons_ok,
      seqWrites_cons_ok, seqWrites_cons_ok]
    simp [seqWrites]

/-- C7 witness: the theorem instantiated at the boundary pair x = 0,
y = 65535. -/
theorem claim_C7_witness :
    ArduLeo.move (.pyInt 0) (.pyInt 65535) =
      ⟨[0xE0, 0xE6, 0, 0, 255, 255], .ok ()⟩ :=
  (claim_C7_move_encoding 0 65535 (by decide) (by decide)).1

/-- C8 (confirmed): one reader-loop iteration reacts to exactly three byte
values. On 0xFF it writes the provider's screen width then height, each as
an unsigned 16-bit little-endian pair; on 0xE1 it writes the pointer x
then y the same way; on 0xFE it invokes set() on the command-complete
event (and then clears it); every other byte value writes nothing, raises
nothing, performs no set(), and leaves the event flag unchanged. The
provider values are assumed to fit in 16 bits, as the uint16 calibration
interface requires. -/
theorem claim_C8_reader_loop (c : Calib) (g : Bool) (b : Nat)
    (hw : 0 ≤ c.width ∧ c.width ≤ 65535) (hh : 0 ≤ c.height ∧ c.height ≤ 65535)
    (hx : 0 ≤ c.x ∧ c.x ≤ 65535) (hy : 0 ≤ c.y ∧ c.y ≤ 65535) :
    ArduLeo.read_buffer_step c g 0xFF =
      ⟨[c.width.toNat % 256, c.width.toNat / 256,
        c.height.toNat % 256, c.height.toNat / 256], none, g, false⟩ ∧
    ArduLeo.read_buffer_step c g 0xE1 =
      ⟨[c.x.toNat % 256, c.x.toNat / 256, c.y.toNat % 256, c.y.toNat / 256],
        none, g, false⟩ ∧
    ArduLeo.read_buffer_step c g 0xFE = ⟨[], none, false, true⟩ ∧
    (b ≠ 0xE1 ∧ b ≠ 0xFE ∧ b ≠ 0xFF →
      ArduLeo.read_buffer_step c g b = ⟨[], none, g, false⟩) := by
  have hcs : ArduLeo.calibrate_screen c =
      ⟨[c.width.toNat % 256, c.width.toNat / 256,
        c.height.toNat % 256, c.height.toNat / 256], .ok ()⟩ := by
    simp only [ArduLeo.calibrate_screen, write_short_ok c.width hw.1 hw.2,
      write_short_ok c.height hh.1 hh.2, seqWrites_cons_ok]
    simp [seqWrites]
  have hcm : ArduLeo.calibrate_mouse c =
      ⟨[c.x.toNat % 256, c.x.toNat / 256, c.y.toNat % 256, c.y.toNat / 256],
        .ok ()⟩ := by
    simp only [ArduLeo.calibrate_mouse, write_short_ok c.x hx.1 hx.2,
      write_short_ok c.y hy.1 hy.2, seqWrites_cons_ok]
    simp [seqWrites]
  refine ⟨?_, ?_, rfl, ?_⟩
  · simp [ArduLeo.read_buffer_step, ArduLeo.MOUSE_CALIBRATE,
      ArduLeo.SCREEN_CALIBRATE, hcs]
  · simp [ArduLeo.read_buffer_step, ArduLeo.MOUSE_CALIBRATE, hcm]
  · intro hb
    simp only [ArduLeo.read_buffer_step, ArduLeo.MOUSE_CALIBRATE,
      ArduLeo.SCREEN_CALIBRATE, ArduLeo.COMMAND_COMPLETE]
    rw [if_neg hb.1, if_neg hb.2.2, if_neg hb.2.1]

/-- C8 witness: the theorem instantiated at an 800 by 600 screen, pointer
(10, 20), flag false, and the unhandled byte 0x33. -/
theorem claim_C8_witness :
    ArduLeo.read_buffer_step ⟨800, 600, 10, 20⟩ false 0xFF =
      ⟨[0x20, 0x03, 0x58, 0x02], none, false, false⟩ ∧
    ArduLeo.read_buffer_step ⟨800, 600, 10, 20⟩ false 0x33 =
      ⟨[], none, false, false⟩ := by
  have h := claim_C8_reader_loop ⟨800, 600, 10, 20⟩ false 0x33
    (by decide) (by decide) (by decide) (by decide)
  exact ⟨h.1, h.2.2.2 (by decide)⟩

/-- C9 (confirmed): every public operation of the `Arduino` class in
`data/arduLeo.py` and of the `Arduino` class in `test2.py`, applied to the
same arguments, produces the identical outcome — the same bytes on the
transport and the same error or completion — and the reader loops react
identically to every byte once the calibration provider is fixed, which is
the only point where the two files draw on different data sources. -/
theorem claim_C9_two_classes_agree :
    (∀ v, ArduLeo.press v = Test2.press v) ∧
    (∀ v, ArduLeo.release v = Test2.release v) ∧
    (ArduLeo.release_all = Test2.release_all) ∧
    (∀ v e, ArduLeo.write v e = Test2.write v e) ∧
    (∀ m w mi a, ArduLeo.type m w mi a = Test2.type m w mi a) ∧
    (∀ v, ArduLeo.click v = Test2.click v) ∧
    (∀ v, ArduLeo.fast_click v = Test2.fast_click v) ∧
    (∀ x y, ArduLeo.move x y = Test2.move x y) ∧
    (∀ x y, ArduLeo.bezier_move x y = Test2.bezier_move x y) ∧
    (∀ c g b, ArduLeo.read_buffer_step c g b = Test2.read_buffer_step c g b) :=
  ⟨fun _ => rfl, fun _ => rfl, rfl, fun _ _ => rfl, fun _ _ _ _ => rfl,
   fun _ => rfl, fun _ => rfl, fun _ _ => rfl, fun _ _ => rfl,
   fun _ _ _ => rfl⟩

/-- C10 (confirmed): an integer coordinate x outside [0, 65535] passes the
(numeric) validation of move, so the command byte 0xE0 and sub-opcode
0xE6 reach the transport before `struct.pack` raises on x, leaving a
truncated command on the wire, whatever the second argument is. -/
theorem claim_C10_move_out_of_range (x : Int) (y : PyVal)
    (hx : x < 0 ∨ 65535 < x) :
    ArduLeo.move (.pyInt x) y = ⟨[0xE0, 0xE6], .error .structError⟩ := by
  have eE0 : ArduLeo.write_byte (.pyInt (ArduLeo.MOUSE_CMD : Int)) =
      ⟨[0xE0], .ok ()⟩ := by decide
  have eE6 : ArduLeo.write_byte (.pyInt (ArduLeo.MOUSE_MOVE : Int)) =
      ⟨[0xE6], .ok ()⟩ := by decide
  have hws : ArduLeo.write_short (.pyInt x) = ⟨[], .error .structError⟩ := by
    simp only [ArduLeo.write_short, pyToInt]
    rw [if_pos hx]
  show seqWrites [ArduLeo.write_byte (.pyInt (ArduLeo.MOUSE_CMD : Int)),
    ArduLeo.write_byte (.pyInt (ArduLeo.MOUSE_MOVE : Int)),
    ArduLeo.write_short (.pyInt x), ArduLeo.write_short y] = _
  rw [eE0, eE6, hws, seqWrites_cons_ok, seqWrites_cons_ok, seqWrites_cons_err]
  rfl

/-- C10 witness: the theorem instantiated at x = 65536, y = 0. -/
theorem claim_C10_witness :
    ArduLeo.move (.pyInt 65536) (.pyInt 0) =
      ⟨[0xE0, 0xE6], .error .structError⟩ :=
  claim_C10_move_out_of_range 65536 (.pyInt 0) (by decide)
